import Mathlib

/-
Shallow embedding of `src/main.py` (FastAPI todo service with JWT auth).

Conventions of the embedding:
- Database rows are Lean structures; the SQLAlchemy session is a `DB` value
  holding the `users` and `todos` tables as lists together with the
  auto-increment counters for primary keys.
- Each route handler becomes a pure function.  Handlers that write return the
  response paired with the post-state `DB`; read-only handlers return just the
  response.  `HTTPException(status, detail)` becomes the `err` constructor of
  `HRes` carrying an `ErrResp`.
- Request-body validation performed by the pydantic schemas (`UserCreate`,
  `TodoCreate`, `TodoUpdate`) runs before the handler body, so it is the first
  step of the corresponding function.
- Wall-clock time (`datetime.utcnow`) is passed explicitly: as epoch seconds
  (`Nat`) where token expiry arithmetic happens, as an opaque `String`
  timestamp where the code only stores `isoformat()` values.
- The bcrypt hasher (passlib) and the JWT signer (python-jose) are external
  collaborators; they are modelled from the spec's interface contracts and
  marked `Modelled from the spec:` below.
-/

/-! ## String helpers (model of `str.lower`, SQL `ILIKE '%q%'`) -/

/-- Characters of a string after `str.lower`. -/
def lowerChars (s : String) : List Char := s.data.map Char.toLower

/-- Case-insensitive string equality, the model of
`func.lower(User.email) == payload.email.lower()` in `signup`/`login`. -/
def lowerEq (a b : String) : Bool := lowerChars a == lowerChars b

/-- Boolean list-prefix test. -/
def isPrefixB : List Char → List Char → Bool
  | [], _ => true
  | _ :: _, [] => false
  | a :: as, b :: bs => a == b && isPrefixB as bs

/-- Boolean contiguous-sublist test: does `n` occur inside `h`? -/
def isInfixB (n : List Char) (h : List Char) : Bool :=
  match h with
  | [] => n.isEmpty
  | _ :: t => isPrefixB n h || isInfixB n t

/-- Model of SQL `column ILIKE '%q%'` as used by `list_todos`:
case-insensitive containment of `q` in the column value
(`q` is assumed free of the LIKE wildcard characters). -/
def ilikeContains (field q : String) : Bool :=
  isInfixB (lowerChars q) (lowerChars field)

/-- Literal (case-sensitive) substring containment.  This definition follows
the spec's words "contains q as a substring" and exists only to be compared
with the code's case-insensitive `ilikeContains`. -/
def specContainsSubstr (field q : String) : Bool :=
  isInfixB q.data field.data

/-! ## Configuration constants (`src/main.py` lines 20-22, env defaults) -/

def JWT_ALGO : String := "HS256"

def JWT_EXPIRES_MIN : Nat := 60

/-! ## Credential hasher -/

/-- Modelled from the spec: the Credential Hasher (passlib bcrypt, section 4.1)
is an external collaborator.  A stored hash is modelled as a value determined
by the plaintext together with a salt, so that hashing the same password with
different salts yields different hash strings while verification depends only
on the plaintext. -/
structure HashStr where
  digest : String
  salt : Nat
deriving DecidableEq

/-- Modelled from the spec: `pwd_context.hash(password)` — salted one-way
transform; the salt drawn by bcrypt is made an explicit argument. -/
def get_password_hash (password : String) (salt : Nat) : HashStr :=
  { digest := password, salt := salt }

/-- Modelled from the spec: `pwd_context.verify(plain, hashed)` — true exactly
when the plaintext matches the one the hash was produced from, regardless of
the salt. -/
def verify_password (plain : String) (hashed : HashStr) : Bool :=
  plain == hashed.digest

/-! ## JWT issue / verify -/

/-- Decoded JWT claim set: `sub` (optional string) and `exp` (epoch seconds). -/
structure JWTPayload where
  sub : Option String
  exp : Nat
deriving DecidableEq

/-- An encoded token: payload, algorithm header, and signature. -/
structure JWT where
  payload : JWTPayload
  alg : String
  sig : Nat
deriving DecidableEq

/-- Fold a list of numbers into one (injective enough for concrete inputs). -/
def combineNats (l : List Nat) : Nat :=
  l.foldl (fun a n => a * 1000003 + n + 1) 7

/-- Modelled from the spec: the HMAC signature over payload and algorithm
under the secret key.  Only the functional dependence matters to the model. -/
def signJWT (p : JWTPayload) (secret : Nat) (alg : String) : Nat :=
  combineNats (secret :: alg.data.map Char.toNat
    ++ (match p.sub with
        | none => [0]
        | some s => 1 :: s.data.map Char.toNat)
    ++ [p.exp])

/-- Model of `jwt.encode(claims, JWT_SECRET, algorithm=JWT_ALGO)`. -/
def jwt_encode (p : JWTPayload) (secret : Nat) (alg : String) : JWT :=
  { payload := p, alg := alg, sig := signJWT p secret alg }

/-- Modelled from the spec: `jwt.decode(token, secret, algorithms=[alg])`
(section 4.2 verifier) — succeeds iff the algorithm header is the expected
one, the signature is valid under the secret, and `expiry > now`; returns
the claim set, failing with `none` (a `JWTError`) otherwise. -/
def jwt_decode (t : JWT) (secret : Nat) (alg : String) (now : Nat) :
    Option JWTPayload :=
  if t.alg == alg && t.sig == signJWT t.payload secret t.alg
      && decide (now < t.payload.exp)
  then some t.payload else none

/-- Model of `create_access_token(data, expires_minutes)` with
`data = {"sub": sub}`: sets `exp = now + expires_minutes` (in minutes, held
as seconds) and signs with the process secret and `JWT_ALGO`. -/
def create_access_token (sub : String) (now : Nat) (secret : Nat)
    (expires_minutes : Nat) : JWT :=
  jwt_encode { sub := some sub, exp := now + expires_minutes * 60 } secret JWT_ALGO

/-! ## Rows, schemas, and the database state -/

/-- Row of the `users` table. -/
structure UserRec where
  id : Nat
  email : String
  full_name : String
  hashed_password : HashStr
  is_active : Bool
  created_at : String
deriving DecidableEq

/-- Row of the `todos` table (identical to the `TodoOut` response schema). -/
structure TodoRec where
  id : Nat
  title : String
  description : String
  owner_id : Nat
  created_at : String
  updated_at : String
deriving DecidableEq

/-- The `UserOut` response schema: the user's public fields, no hash. -/
structure UserOut where
  id : Nat
  email : String
  full_name : String
  is_active : Bool
  created_at : String
deriving DecidableEq

/-- Serialization of `UserOut` as the JSON object the route returns:
field names paired with rendered values. -/
def UserOut.render (u : UserOut) : List (String × String) :=
  [("id", toString u.id), ("email", u.email), ("full_name", u.full_name),
   ("is_active", toString u.is_active), ("created_at", u.created_at)]

/-- Projection `UserOut.(from_attributes) ∘ User`. -/
def userOut (u : UserRec) : UserOut :=
  { id := u.id, email := u.email, full_name := u.full_name,
    is_active := u.is_active, created_at := u.created_at }

/-- The `Token` response schema of `login`. -/
structure TokenOut where
  access_token : JWT
  token_type : String
deriving DecidableEq

/-- Database session state: both tables plus auto-increment counters. -/
structure DB where
  users : List UserRec
  todos : List TodoRec
  nextUserId : Nat
  nextTodoId : Nat
deriving DecidableEq

/-- An `HTTPException` (or pydantic validation failure) as the client sees
it: status code and detail message. -/
structure ErrResp where
  status : Nat
  detail : String
deriving DecidableEq

/-- Outcome of a route handler: a success value or an error response. -/
inductive HRes (α : Type) where
  | ok (val : α)
  | err (e : ErrResp)
deriving DecidableEq

/-- The uniform 404 of the todo routes. -/
def notFoundErr : ErrResp := { status := 404, detail := "Todo not found" }

/-- The 409 of `signup`. -/
def conflictErr : ErrResp := { status := 409, detail := "Email already registered" }

/-- The uniform 400 of `login`. -/
def badCredErr : ErrResp := { status := 400, detail := "Incorrect email or password" }

/-- A pydantic request-body validation failure (FastAPI returns 422). -/
def validationErr : ErrResp := { status := 422, detail := "validation error" }

/-! ## Identity resolution (`get_current_user`) -/

/-- Python `int(s)` on the string from `payload.get("sub")`: all-digit
strings parse, anything else raises `ValueError` (`none`). -/
def parseNatAux : List Char → Nat → Option Nat
  | [], acc => some acc
  | c :: cs, acc =>
    if c.isDigit then parseNatAux cs (10 * acc + (c.toNat - 48)) else none

def pyIntOfString (s : String) : Option Nat :=
  match s.data with
  | [] => none
  | cs => parseNatAux cs 0

/-- Outcome of `get_current_user`: the resolved user, the uniform
401 `credentials_error` ("Could not validate credentials"), or an exception
that escapes the handler uncaught (FastAPI turns it into a 500). -/
inductive AuthResult where
  | ok (u : UserRec)
  | unauthenticated
  | unhandledError
deriving DecidableEq

/-- Model of `get_current_user(token, db)`.  `jwt.decode` failures
(`JWTError`) are caught and become the 401.  A decoded payload with no
`"sub"` claim makes `int(payload.get("sub"))` raise `TypeError` — and a
non-numeric `"sub"` makes it raise `ValueError` — neither of which is a
`JWTError`, so they escape the `except` clause uncaught. -/
def get_current_user (users : List UserRec) (secret : Nat) (now : Nat)
    (token : JWT) : AuthResult :=
  match jwt_decode token secret JWT_ALGO now with
  | none => .unauthenticated
  | some payload =>
    match payload.sub with
    | none => .unhandledError
    | some s =>
      match pyIntOfString s with
      | none => .unhandledError
      | some uid =>
        match users.find? (fun u => u.id == uid) with
        | none => .unauthenticated
        | some u => if u.is_active then .ok u else .unauthenticated

/-! ## Route handlers -/

/-- Title bound of `TodoCreate`/`TodoUpdate`: `Field(min_length=1, max_length=200)`. -/
def titleOk (s : String) : Bool :=
  decide (1 ≤ s.length) && decide (s.length ≤ 200)

/-- `TodoUpdate` body validation: an omitted title passes, a provided one
must satisfy the length bound. -/
def tuValid (titleU : Option String) : Bool :=
  match titleU with
  | none => true
  | some t => titleOk t

/-- Model of `POST /auth/signup`.  `UserCreate` validation
(`password: Field(min_length=6)`) runs first; then the case-insensitive
duplicate-email check; then the row is inserted with the hashed password,
`is_active` defaulting to true, and the next auto-increment id.  The route
returns 201 with the `UserOut` projection. -/
def signup (db : DB) (email : String) (password : String)
    (full_name : Option String) (salt : Nat) (now : String) :
    HRes UserOut × DB :=
  if password.length < 6 then (.err validationErr, db)
  else if db.users.any (fun u => lowerEq u.email email) then
    (.err conflictErr, db)
  else
    let u : UserRec :=
      { id := db.nextUserId, email := email,
        full_name := full_name.getD "",
        hashed_password := get_password_hash password salt,
        is_active := true, created_at := now }
    (.ok (userOut u),
     { db with users := db.users ++ [u], nextUserId := db.nextUserId + 1 })

/-- Model of `POST /auth/login`: first user matching the email
case-insensitively; 400 on no match or password mismatch; otherwise a
bearer token whose subject is `str(user.id)`. -/
def login (db : DB) (email : String) (password : String) (secret : Nat)
    (now : Nat) : HRes TokenOut :=
  match db.users.find? (fun u => lowerEq u.email email) with
  | none => .err badCredErr
  | some u =>
    if verify_password password u.hashed_password then
      .ok { access_token := create_access_token (toString u.id) now secret
              JWT_EXPIRES_MIN,
            token_type := "bearer" }
    else .err badCredErr

/-- Model of `POST /todos`.  `TodoCreate` validation runs first; on success
the row is inserted with the caller as owner and both timestamps set to now,
returned with 201. -/
def create_todo (db : DB) (uid : Nat) (title : String)
    (description : Option String) (now : String) : HRes TodoRec × DB :=
  if titleOk title = false then (.err validationErr, db)
  else
    let t : TodoRec :=
      { id := db.nextTodoId, title := title,
        description := description.getD "",
        owner_id := uid, created_at := now, updated_at := now }
    (.ok t,
     { db with todos := db.todos ++ [t], nextTodoId := db.nextTodoId + 1 })

/-- Model of `GET /todos`: filter to the caller's rows; when `q` is a
non-empty string, keep rows whose title or description matches
`ILIKE '%q%'`; order by id descending; then `offset(skip).limit(limit)`.
(`if q:` in Python skips the filter for both `None` and `""`.) -/
def list_todos (db : DB) (uid : Nat) (q : Option String) (skip : Nat)
    (limit : Nat) : List TodoRec :=
  let owned := db.todos.filter (fun t => t.owner_id == uid)
  let searched :=
    match q with
    | none => owned
    | some s =>
      if s == "" then owned
      else owned.filter (fun t =>
        ilikeContains t.title s || ilikeContains t.description s)
  let ordered := searched.insertionSort (fun a b => b.id ≤ a.id)
  (ordered.drop skip).take limit

/-- Default and bounds of the `limit` query parameter:
`Query(20, ge=1, le=100)`. -/
def LIST_LIMIT_DEFAULT : Nat := 20

def LIST_LIMIT_MAX : Nat := 100

/-- Model of `GET /todos/{id}`: `db.get(Todo, todo_id)`, then the uniform
404 when the row is absent or owned by someone else. -/
def get_todo (db : DB) (uid : Nat) (tid : Nat) : HRes TodoRec :=
  match db.todos.find? (fun t => t.id == tid) with
  | none => .err notFoundErr
  | some t => if t.owner_id != uid then .err notFoundErr else .ok t

/-- Model of `PUT /todos/{id}`.  `TodoUpdate` validation runs first; then
lookup and the uniform 404; then each provided field is assigned and
`updated_at` is refreshed, and the row is written back. -/
def update_todo (db : DB) (uid : Nat) (tid : Nat) (titleU : Option String)
    (descU : Option String) (now : String) : HRes TodoRec × DB :=
  if tuValid titleU = false then (.err validationErr, db)
  else
    match db.todos.find? (fun t => t.id == tid) with
    | none => (.err notFoundErr, db)
    | some t =>
      if t.owner_id != uid then (.err notFoundErr, db)
      else
        let t' : TodoRec :=
          { t with title := titleU.getD t.title,
                   description := descU.getD t.description,
                   updated_at := now }
        (.ok t',
         { db with todos := db.todos.map (fun x => if x.id == tid then t' else x) })

/-- Model of `DELETE /todos/{id}`: lookup, the uniform 404, then the row is
removed and 204 with empty body is returned. -/
def delete_todo (db : DB) (uid : Nat) (tid : Nat) : HRes Unit × DB :=
  match db.todos.find? (fun t => t.id == tid) with
  | none => (.err notFoundErr, db)
  | some t =>
    if t.owner_id != uid then (.err notFoundErr, db)
    else (.ok (), { db with todos := db.todos.filter (fun x => !(x.id == tid)) })

/-! ## Sorting instances for the descending-id order -/

instance : IsTotal TodoRec (fun a b => b.id ≤ a.id) :=
  ⟨fun a b => Nat.le_total b.id a.id⟩

instance : IsTrans TodoRec (fun a b => b.id ≤ a.id) :=
  ⟨fun _ _ _ hab hbc => Nat.le_trans hbc hab⟩

/-! ## Concrete fixtures used by witnesses and counterexamples -/

def demoUser : UserRec :=
  { id := 7, email := "a@x.com", full_name := "Ada",
    hashed_password := get_password_hash "secret1" 5,
    is_active := true, created_at := "2026-01-01T00:00:00" }

def demoInactive : UserRec := { demoUser with is_active := false }

def demoToken : JWT := jwt_encode { sub := some "7", exp := 3600 } 99 JWT_ALGO

def tamperedToken : JWT := { demoToken with sig := 0 }

def wrongAlgToken : JWT := jwt_encode { sub := some "7", exp := 3600 } 99 "none"

def noSubToken : JWT := jwt_encode { sub := none, exp := 3600 } 99 JWT_ALGO

def helloTodo : TodoRec :=
  { id := 1, title := "HELLO", description := "", owner_id := 1,
    created_at := "t", updated_at := "t" }

def dbHello : DB :=
  { users := [], todos := [helloTodo], nextUserId := 1, nextTodoId := 2 }

def db0 : DB := { users := [demoUser], todos := [], nextUserId := 8, nextTodoId := 1 }

def db1 : DB := (create_todo db0 7 "one" none "t1").2

def db2 : DB := (create_todo db1 7 "two" none "t2").2

def db3 : DB := (create_todo db2 7 "three" none "t3").2

def secondTodo : TodoRec :=
  { id := 2, title := "two", description := "", owner_id := 7,
    created_at := "t2", updated_at := "t2" }

def thirdTodo : TodoRec :=
  { id := 3, title := "three", description := "", owner_id := 7,
    created_at := "t3", updated_at := "t3" }

/-! ## Claim theorems -/

/-- C3: verifying the token issued by `create_access_token` for user `u` at
time `now` with a ttl of `ttl` minutes, at verification time `now2`, yields
the claim set with subject `u` (as a string) exactly when `now2` is before
`now + ttl` minutes; at or past expiry decoding fails; and the configured
default ttl is 60 minutes. -/
theorem token_roundtrip_iff_before_expiry (u now ttl secret now2 : Nat) :
    (jwt_decode (create_access_token (toString u) now secret ttl) secret
        JWT_ALGO now2
      = some { sub := some (toString u), exp := now + ttl * 60 }
      ↔ now2 < now + ttl * 60)
    ∧ (¬ now2 < now + ttl * 60 →
        jwt_decode (create_access_token (toString u) now secret ttl) secret
          JWT_ALGO now2 = none)
    ∧ JWT_EXPIRES_MIN = 60 := by
  refine ⟨?_, ?_, rfl⟩
  · by_cases h : now2 < now + ttl * 60 <;>
      simp [jwt_decode, create_access_token, jwt_encode, h]
  · intro h
    simp [jwt_decode, create_access_token, jwt_encode, h]

/-- C2: the cases the claim lists do not all land in the uniform 401.  With
a one-row user table: a tampered signature, a wrong algorithm header, an
expired token, a subject with no user row, and an inactive user all produce
the uniform 401 (`credentials_error`), and a valid token resolves the user;
but a correctly signed, unexpired token carrying no `sub` claim makes
`int(payload.get("sub"))` raise a `TypeError` that the `except JWTError`
clause does not catch, an unhandled error distinct from the 401 — the dead
`if user_id is None` check in the source shows the 401 was the intent. -/
theorem get_current_user_missing_sub_unhandled :
    get_current_user [demoUser] 99 0 noSubToken = AuthResult.unhandledError
    ∧ AuthResult.unhandledError ≠ AuthResult.unauthenticated
    ∧ get_current_user [demoUser] 99 0 tamperedToken = AuthResult.unauthenticated
    ∧ get_current_user [demoUser] 99 0 wrongAlgToken = AuthResult.unauthenticated
    ∧ get_current_user [demoUser] 99 7200 demoToken = AuthResult.unauthenticated
    ∧ get_current_user [] 99 0 demoToken = AuthResult.unauthenticated
    ∧ get_current_user [demoInactive] 99 0 demoToken = AuthResult.unauthenticated
    ∧ get_current_user [demoUser] 99 0 demoToken = AuthResult.ok demoUser := by
  decide

/-- C4: verification succeeds on the password a hash was produced from and
fails on any other password; hashing the same password with two different
salts yields two different hash strings, both of which verify against it. -/
theorem password_hash_verify_props (p p1 p2 : String) (s s1 s2 : Nat)
    (hne : p1 ≠ p2) (hs : s1 ≠ s2) :
    verify_password p (get_password_hash p s) = true
    ∧ verify_password p1 (get_password_hash p2 s) = false
    ∧ get_password_hash p s1 ≠ get_password_hash p s2
    ∧ verify_password p (get_password_hash p s1) = true
    ∧ verify_password p (get_password_hash p s2) = true := by
  refine ⟨by simp [verify_password, get_password_hash], ?_, ?_,
    by simp [verify_password, get_password_hash],
    by simp [verify_password, get_password_hash]⟩
  · simpa [verify_password, get_password_hash] using hne
  · intro h
    exact hs (congrArg HashStr.salt h)

/-- Witness for C4 at concrete passwords and salts. -/
theorem password_hash_verify_props_witness :
    ("secret1" ≠ "hunter2" ∧ (0 : Nat) ≠ 1)
    ∧ verify_password "pw1234" (get_password_hash "pw1234" 3) = true
    ∧ verify_password "secret1" (get_password_hash "hunter2" 3) = false
    ∧ get_password_hash "pw1234" 0 ≠ get_password_hash "pw1234" 1
    ∧ verify_password "pw1234" (get_password_hash "pw1234" 0) = true
    ∧ verify_password "pw1234" (get_password_hash "pw1234" 1) = true :=
  ⟨⟨by decide, by decide⟩,
   password_hash_verify_props "pw1234" "secret1" "hunter2" 3 0 1
     (by decide) (by decide)⟩

/-- C10: a signup request whose password is shorter than 6 characters is
rejected by the `UserCreate` schema with a validation error; no hashing
happens and the database is returned unchanged, so every stored user was
created from a password of length at least 6. -/
theorem signup_short_password_rejected
    (db : DB) (email password : String) (fn : Option String) (salt : Nat)
    (now : String) (hlen : password.length < 6) :
    (signup db email password fn salt now).1 = .err validationErr
    ∧ (signup db email password fn salt now).2 = db
    ∧ validationErr.status = 422 := by
  refine ⟨?_, ?_, rfl⟩ <;> simp [signup, hlen]

/-- Witness for C10: a five-character password is rejected unchanged. -/
theorem signup_short_password_rejected_witness :
    ("short".length < 6)
    ∧ (signup db0 "c@x.com" "short" none 5 "t").1 = .err validationErr
    ∧ (signup db0 "c@x.com" "short" none 5 "t").2 = db0
    ∧ validationErr.status = 422 :=
  ⟨by decide, signup_short_password_rejected db0 "c@x.com" "short" none 5 "t" (by decide)⟩

/-- C1: when the todo with id `n` exists but belongs to a different owner,
`get_todo`, `update_todo` (with a valid body) and `delete_todo` all fail
with the uniform 404 "Todo not found", and each response is identical to
the one produced against a database in which no todo with id `n` exists. -/
theorem ownership_indistinguishable_from_absence
    (db dbA : DB) (uid n : Nat) (t : TodoRec) (tu du : Option String)
    (now : String)
    (hv : tuValid tu = true)
    (hfind : db.todos.find? (fun x => x.id == n) = some t)
    (hown : t.owner_id ≠ uid)
    (habs : dbA.todos.find? (fun x => x.id == n) = none) :
    get_todo db uid n = .err notFoundErr
    ∧ (update_todo db uid n tu du now).1 = .err notFoundErr
    ∧ (delete_todo db uid n).1 = .err notFoundErr
    ∧ get_todo dbA uid n = get_todo db uid n
    ∧ (update_todo dbA uid n tu du now).1 = (update_todo db uid n tu du now).1
    ∧ (delete_todo dbA uid n).1 = (delete_todo db uid n).1
    ∧ notFoundErr.status = 404 := by
  have hown' : (t.owner_id != uid) = true := by
    simpa [bne_iff_ne] using hown
  refine ⟨?_, ?_, ?_, ?_, ?_, ?_, rfl⟩ <;>
    simp [get_todo, update_todo, delete_todo, hv, hfind, habs, hown']

/-- Witness for C1: user 9 requesting user 7's todo id 2 gets the same 404
as against a database with no todo id 2. -/
theorem ownership_indistinguishable_from_absence_witness :
    (tuValid (some "x") = true
     ∧ db3.todos.find? (fun x => x.id == 2) = some secondTodo
     ∧ secondTodo.owner_id ≠ 9
     ∧ db0.todos.find? (fun x => x.id == 2) = none)
    ∧ get_todo db3 9 2 = .err notFoundErr
    ∧ (update_todo db3 9 2 (some "x") (some "y") "t9").1 = .err notFoundErr
    ∧ (delete_todo db3 9 2).1 = .err notFoundErr
    ∧ get_todo db0 9 2 = get_todo db3 9 2
    ∧ (update_todo db0 9 2 (some "x") (some "y") "t9").1
        = (update_todo db3 9 2 (some "x") (some "y") "t9").1
    ∧ (delete_todo db0 9 2).1 = (delete_todo db3 9 2).1
    ∧ notFoundErr.status = 404 :=
  ⟨⟨by decide, by decide, by decide, by decide⟩,
   ownership_indistinguishable_from_absence db3 db0 9 2 secondTodo
     (some "x") (some "y") "t9" (by decide) (by decide) (by decide) (by decide)⟩

/-- C5: with a body that passes validation (password length at least 6),
signup fails with the 409 Conflict exactly when some stored user has the
same email under case-insensitive comparison; otherwise it succeeds with
the created user's public fields, and the `UserOut` response schema renders
no `hashed_password` field at all. -/
theorem signup_conflict_iff_email_taken
    (db : DB) (email password : String) (fn : Option String) (salt : Nat)
    (now : String) (hpw : 6 ≤ password.length) :
    ((signup db email password fn salt now).1 = .err conflictErr
      ↔ db.users.any (fun u => lowerEq u.email email) = true)
    ∧ (db.users.any (fun u => lowerEq u.email email) = false →
        (signup db email password fn salt now).1
          = .ok { id := db.nextUserId, email := email, full_name := fn.getD "",
                  is_active := true, created_at := now })
    ∧ (∀ o : UserOut, ∀ kv ∈ o.render, kv.1 ≠ "hashed_password")
    ∧ conflictErr.status = 409 := by
  have hnlt : ¬ password.length < 6 := Nat.not_lt.mpr hpw
  refine ⟨?_, ?_, ?_, rfl⟩
  · cases hany : db.users.any (fun u => lowerEq u.email email) <;>
      simp [signup, hnlt, hany, userOut]
  · intro hany
    simp [signup, hnlt, hany, userOut]
  · intro o kv hkv
    simp only [UserOut.render, List.mem_cons, List.not_mem_nil, or_false] at hkv
    rcases hkv with rfl | rfl | rfl | rfl | rfl <;> simp

/-- Witness for C5: fresh email succeeds with public fields, repeated email
(different case) conflicts. -/
theorem signup_conflict_iff_email_taken_witness :
    (6 ≤ "secret2".length)
    ∧ (((signup db0 "A@X.com" "secret2" none 5 "t").1 = .err conflictErr
        ↔ db0.users.any (fun u => lowerEq u.email "A@X.com") = true)
       ∧ (db0.users.any (fun u => lowerEq u.email "A@X.com") = false →
           (signup db0 "A@X.com" "secret2" none 5 "t").1
             = .ok { id := db0.nextUserId, email := "A@X.com",
                     full_name := Option.getD none "",
                     is_active := true, created_at := "t" })
       ∧ (∀ o : UserOut, ∀ kv ∈ o.render, kv.1 ≠ "hashed_password")
       ∧ conflictErr.status = 409) :=
  ⟨by decide,
   signup_conflict_iff_email_taken db0 "A@X.com" "secret2" none 5 "t" (by decide)⟩

/-- C6: when some stored user matches the email case-insensitively, login
succeeds exactly on password verification, issuing a bearer token whose
subject claim is that user's id as a string; a password mismatch and a
completely unknown email produce the identical 400 error. -/
theorem login_uniform_failure_and_token_subject
    (db : DB) (email password : String) (secret now : Nat) (u : UserRec)
    (hfind : db.users.find? (fun v => lowerEq v.email email) = some u) :
    (verify_password password u.hashed_password = false →
       login db email password secret now = .err badCredErr)
    ∧ (∀ db2 : DB, ∀ e2 p2 : String,
        db2.users.find? (fun v => lowerEq v.email e2) = none →
        login db2 e2 p2 secret now = .err badCredErr)
    ∧ (verify_password password u.hashed_password = true →
        login db email password secret now
          = .ok { access_token :=
                    create_access_token (toString u.id) now secret JWT_EXPIRES_MIN,
                  token_type := "bearer" }
        ∧ (create_access_token (toString u.id) now secret JWT_EXPIRES_MIN).payload.sub
            = some (toString u.id))
    ∧ badCredErr.status = 400 := by
  refine ⟨?_, ?_, ?_, rfl⟩
  · intro hv
    simp [login, hfind, hv]
  · intro db2 e2 p2 h2
    simp [login, h2]
  · intro hv
    exact ⟨by simp [login, hfind, hv], rfl⟩

/-- Witness for C6: the demo user logs in with the right password and the
token subject is "7"; the wrong password gets the 400. -/
theorem login_uniform_failure_and_token_subject_witness :
    (db0.users.find? (fun v => lowerEq v.email "A@X.com") = some demoUser)
    ∧ ((verify_password "wrong" demoUser.hashed_password = false →
         login db0 "A@X.com" "wrong" 99 0 = .err badCredErr)
       ∧ (∀ db2 : DB, ∀ e2 p2 : String,
           db2.users.find? (fun v => lowerEq v.email e2) = none →
           login db2 e2 p2 99 0 = .err badCredErr)
       ∧ (verify_password "wrong" demoUser.hashed_password = true →
           login db0 "A@X.com" "wrong" 99 0
             = .ok { access_token :=
                       create_access_token (toString demoUser.id) 0 99 JWT_EXPIRES_MIN,
                     token_type := "bearer" }
           ∧ (create_access_token (toString demoUser.id) 0 99 JWT_EXPIRES_MIN).payload.sub
               = some (toString demoUser.id))
       ∧ badCredErr.status = 400) :=
  ⟨by decide,
   login_uniform_failure_and_token_subject db0 "A@X.com" "wrong" 99 0 demoUser (by decide)⟩

/-- C8: a successful update by the owner changes only the provided fields:
id, owner and creation timestamp always survive, an omitted title or
description keeps its previous value, a provided one is assigned, and
`updated_at` is set to the update time. -/
theorem update_todo_frame
    (db : DB) (uid tid : Nat) (tu du : Option String) (now : String)
    (t t' : TodoRec)
    (hv : tuValid tu = true)
    (hfind : db.todos.find? (fun x => x.id == tid) = some t)
    (hown : t.owner_id = uid)
    (hres : (update_todo db uid tid tu du now).1 = .ok t') :
    t'.id = t.id ∧ t'.owner_id = t.owner_id ∧ t'.created_at = t.created_at
    ∧ t'.updated_at = now
    ∧ (tu = none → t'.title = t.title)
    ∧ (du = none → t'.description = t.description)
    ∧ (∀ s, tu = some s → t'.title = s)
    ∧ (∀ s, du = some s → t'.description = s) := by
  have hown' : (t.owner_id != uid) = false := by simp [hown]
  simp only [update_todo, hv, Bool.true_eq_false, if_false, hfind, hown'] at hres
  cases hres
  refine ⟨rfl, rfl, rfl, rfl, ?_, ?_, ?_, ?_⟩
  · rintro rfl; rfl
  · rintro rfl; rfl
  · rintro s rfl; rfl
  · rintro s rfl; rfl

def updatedSecondTodo : TodoRec :=
  { secondTodo with description := "new", updated_at := "t9" }

/-- Witness for C8: updating todo 2 with only a description leaves the
title and the identifying fields unchanged and refreshes `updated_at`. -/
theorem update_todo_frame_witness :
    (tuValid none = true
     ∧ db3.todos.find? (fun x => x.id == 2) = some secondTodo
     ∧ secondTodo.owner_id = 7
     ∧ (update_todo db3 7 2 none (some "new") "t9").1 = .ok updatedSecondTodo)
    ∧ updatedSecondTodo.id = secondTodo.id
    ∧ updatedSecondTodo.owner_id = secondTodo.owner_id
    ∧ updatedSecondTodo.created_at = secondTodo.created_at
    ∧ updatedSecondTodo.updated_at = "t9"
    ∧ ((none : Option String) = none → updatedSecondTodo.title = secondTodo.title)
    ∧ ((some "new" : Option String) = none →
        updatedSecondTodo.description = secondTodo.description)
    ∧ (∀ s, (none : Option String) = some s → updatedSecondTodo.title = s)
    ∧ (∀ s, (some "new" : Option String) = some s →
        updatedSecondTodo.description = s) :=
  ⟨⟨by decide, by decide, by decide, by decide⟩,
   update_todo_frame db3 7 2 none (some "new") "t9" secondTodo updatedSecondTodo
     (by decide) (by decide) (by decide) (by decide)⟩

/-- C7 (counterexample): with a single stored todo titled "HELLO" and query
"hello", `list_todos` returns the todo, although neither its title nor its
description contains the query as a literal substring: the code's match is
case-insensitive (`ILIKE`), so "restricted to todos whose title or
description contains q as a substring" is false as stated. -/
theorem list_todos_case_insensitive_counterexample :
    list_todos dbHello 1 (some "hello") 0 20 = [helloTodo]
    ∧ specContainsSubstr helloTodo.title "hello" = false
    ∧ specContainsSubstr helloTodo.description "hello" = false := by
  decide

/-- C7 (amended): every todo returned by `list_todos` belongs to the
caller, and — when a non-empty query is given — matches it
case-insensitively in title or description; the result is ordered by
descending id and holds at most `limit` items (`limit` between 1 and 100,
defaulting to 20); and over three owned todos created in order, skip 0 with
limit 1 returns exactly the most recently created one. -/
theorem list_todos_owner_search_order_paginate
    (db : DB) (uid : Nat) (q : String) (skip limit : Nat)
    (hq : q ≠ "") (hlo : 1 ≤ limit) (hhi : limit ≤ LIST_LIMIT_MAX) :
    (∀ t ∈ list_todos db uid (some q) skip limit,
        t.owner_id = uid
        ∧ (ilikeContains t.title q || ilikeContains t.description q) = true)
    ∧ (∀ t ∈ list_todos db uid none skip limit, t.owner_id = uid)
    ∧ List.Pairwise (fun a b : TodoRec => b.id ≤ a.id)
        (list_todos db uid (some q) skip limit)
    ∧ (list_todos db uid (some q) skip limit).length ≤ limit
    ∧ LIST_LIMIT_DEFAULT = 20
    ∧ list_todos db3 7 none 0 1 = [thirdTodo]
    ∧ (create_todo db2 7 "three" none "t3").1 = .ok thirdTodo := by
  have hq' : (q == "") = false := beq_eq_false_iff_ne.mpr hq
  refine ⟨?_, ?_, ?_, ?_, rfl, by decide, by decide⟩
  · intro t ht
    simp only [list_todos, hq', Bool.false_eq_true, if_false] at ht
    have h2 := List.mem_of_mem_drop (List.mem_of_mem_take ht)
    rw [List.mem_insertionSort] at h2
    simp only [List.mem_filter] at h2
    refine ⟨by simpa using h2.1.2, h2.2⟩
  · intro t ht
    simp only [list_todos] at ht
    have h2 := List.mem_of_mem_drop (List.mem_of_mem_take ht)
    rw [List.mem_insertionSort] at h2
    simp only [List.mem_filter] at h2
    simpa using h2.2
  · simp only [list_todos, hq', Bool.false_eq_true, if_false]
    exact List.Pairwise.sublist
      ((List.take_sublist _ _).trans (List.drop_sublist _ _))
      (List.sorted_insertionSort _ _)
  · simp only [list_todos, hq', Bool.false_eq_true, if_false]
    rw [List.length_take]
    exact min_le_left _ _

/-- Witness for C7 at the "HELLO" database with query "hello". -/
theorem list_todos_owner_search_order_paginate_witness :
    (("hello" : String) ≠ "" ∧ 1 ≤ 20 ∧ 20 ≤ LIST_LIMIT_MAX)
    ∧ ((∀ t ∈ list_todos dbHello 1 (some "hello") 0 20,
          t.owner_id = 1
          ∧ (ilikeContains t.title "hello"
              || ilikeContains t.description "hello") = true)
       ∧ (∀ t ∈ list_todos dbHello 1 none 0 20, t.owner_id = 1)
       ∧ List.Pairwise (fun a b : TodoRec => b.id ≤ a.id)
           (list_todos dbHello 1 (some "hello") 0 20)
       ∧ (list_todos dbHello 1 (some "hello") 0 20).length ≤ 20
       ∧ LIST_LIMIT_DEFAULT = 20
       ∧ list_todos db3 7 none 0 1 = [thirdTodo]
       ∧ (create_todo db2 7 "three" none "t3").1 = .ok thirdTodo) :=
  ⟨⟨by decide, by decide, by decide⟩,
   list_todos_owner_search_order_paginate dbHello 1 "hello" 0 20
     (by decide) (by decide) (by decide)⟩

/-- All stored todos have titles within the 1..200 character bound. -/
abbrev TodoInv (todos : List TodoRec) : Prop :=
  ∀ t ∈ todos, titleOk t.title = true

/-- C9: the title bound is enforced before any write — `create_todo` with
an out-of-bounds title and `update_todo` with an out-of-bounds provided
title return the validation error with the database unchanged — and every
todo operation preserves the invariant that all stored titles are within
1..200 characters. -/
theorem todo_title_bound_invariant
    (db : DB) (uid tid : Nat) (title : String) (descr tu du : Option String)
    (nowS : String)
    (hinv : TodoInv db.todos) :
    (titleOk title = false →
       (create_todo db uid title descr nowS).1 = .err validationErr
       ∧ (create_todo db uid title descr nowS).2 = db)
    ∧ (∀ s, tu = some s → titleOk s = false →
       (update_todo db uid tid tu du nowS).1 = .err validationErr
       ∧ (update_todo db uid tid tu du nowS).2 = db)
    ∧ TodoInv (create_todo db uid title descr nowS).2.todos
    ∧ TodoInv (update_todo db uid tid tu du nowS).2.todos
    ∧ TodoInv (delete_todo db uid tid).2.todos := by
  refine ⟨?_, ?_, ?_, ?_, ?_⟩
  · intro h
    constructor <;> simp [create_todo, h]
  · rintro s rfl h
    constructor <;> simp [update_todo, tuValid, h]
  · by_cases h : titleOk title = false
    · simpa [create_todo, h] using hinv
    · rw [Bool.not_eq_false] at h
      simp only [create_todo, h, Bool.true_eq_false, if_false]
      intro x hx
      rcases List.mem_append.mp hx with hx | hx
      · exact hinv x hx
      · rcases List.mem_singleton.mp hx with rfl
        exact h
  · by_cases hv : tuValid tu = false
    · simpa [update_todo, hv] using hinv
    · rw [Bool.not_eq_false] at hv
      cases hfind : db.todos.find? (fun x => x.id == tid) with
      | none => simpa [update_todo, hv, hfind] using hinv
      | some t =>
        by_cases how : (t.owner_id != uid) = true
        · simpa [update_todo, hv, hfind, how] using hinv
        · rw [Bool.not_eq_true] at how
          simp only [update_todo, hv, Bool.true_eq_false, if_false, hfind,
            how, Bool.false_eq_true]
          intro x hx
          rcases List.mem_map.mp hx with ⟨y, hy, rfl⟩
          by_cases hid : (y.id == tid) = true
          · simp only [hid, if_true]
            cases tu with
            | none => exact hinv t (List.mem_of_find?_eq_some hfind)
            | some s => simpa [tuValid] using hv
          · rw [Bool.not_eq_true] at hid
            simp only [hid, Bool.false_eq_true, if_false]
            exact hinv y hy
  · cases hfind : db.todos.find? (fun x => x.id == tid) with
    | none => simpa [delete_todo, hfind] using hinv
    | some t =>
      by_cases how : (t.owner_id != uid) = true
      · simpa [delete_todo, hfind, how] using hinv
      · rw [Bool.not_eq_true] at how
        simp only [delete_todo, hfind, how, Bool.false_eq_true, if_false]
        intro x hx
        exact hinv x (List.mem_filter.mp hx).1

/-- Witness for C9 over the three-todo database. -/
theorem todo_title_bound_invariant_witness :
    TodoInv db3.todos
    ∧ ((titleOk "valid" = false →
          (create_todo db3 7 "valid" none "t9").1 = .err validationErr
          ∧ (create_todo db3 7 "valid" none "t9").2 = db3)
       ∧ (∀ s, (some "T" : Option String) = some s → titleOk s = false →
          (update_todo db3 7 2 (some "T") none "t9").1 = .err validationErr
          ∧ (update_todo db3 7 2 (some "T") none "t9").2 = db3)
       ∧ TodoInv (create_todo db3 7 "valid" none "t9").2.todos
       ∧ TodoInv (update_todo db3 7 2 (some "T") none "t9").2.todos
       ∧ TodoInv (delete_todo db3 7 2).2.todos) :=
  ⟨by decide,
   todo_title_bound_invariant db3 7 2 "valid" none (some "T") none "t9" (by decide)⟩
